import Mathlib

/-!
Shallow embedding of scripts/benchmarks_ci.py: the orchestration core that
validates the parsed configuration, provisions tools (init_tools), sets the
target-framework environment variable, builds the benchmark project once,
runs it once per requested framework, and dispatches reporting.

External collaborators (the dotnet, micro_benchmarks and benchview modules)
are observed through a trace of events.  Collaborator functions whose source
is not part of this repository snapshot are modelled from the spec and say
so in their doc comment.
-/

/-- Modelled from the spec: micro_benchmarks.run is an external collaborator
whose source is not under src/.  Per the spec an ordinary benchmark failure
is recoverable (the external run action returns normally), while a
non-recoverable error is signalled fatally (the call raises and the
exception propagates out of the controller). -/
inductive RunResult
  | success
  | recoverableFailure
  | fatal (msg : String)
deriving DecidableEq, Repr

def RunResult.isFatal : RunResult → Bool
  | RunResult.fatal _ => true
  | _ => false

/-- Observable external actions of the orchestrator, in call order. -/
inductive Event
  | infoLog (msg : String)
  | installDotnet (architecture : String) (channels : List String)
      (version : Option String) (verbose : Bool)
  | installBenchview
  | setEnv (name : String) (value : String)
  | dotnetInfo
  | build (target_framework_monikers : List String) (configuration : String)
      (incremental : Bool)
  | run (framework : String) (configuration : String)
  | reportDispatch
  | reportUpload
deriving DecidableEq, Repr

def isInstall : Event → Bool
  | Event.installDotnet _ _ _ _ => true
  | Event.installBenchview => true
  | _ => false

def isInstallDotnet : Event → Bool
  | Event.installDotnet _ _ _ _ => true
  | _ => false

def isSetEnv : Event → Bool
  | Event.setEnv _ _ => true
  | _ => false

def isBuild : Event → Bool
  | Event.build _ _ _ => true
  | _ => false

def isRun : Event → Bool
  | Event.run _ _ => true
  | _ => false

def isReportDispatch : Event → Bool
  | Event.reportDispatch => true
  | _ => false

def isReportUpload : Event → Bool
  | Event.reportUpload => true
  | _ => false

def isReport : Event → Bool
  | Event.reportDispatch => true
  | Event.reportUpload => true
  | _ => false

/-- Persistent filesystem state visible to the tool provisioner: the set of
marker (semaphore) files present. -/
structure FS where
  markers : List String
deriving DecidableEq, Repr

/-- The parsed command-line configuration relevant to the orchestration core
(argparse destinations of scripts/benchmarks_ci.py and of the collaborator
argument groups it installs). -/
structure Args where
  quiet : Bool
  architecture : String
  dotnet_version : Option String
  frameworks : List String
  configuration : String
  incremental : Bool
  csprojfile : String
  bin_directory : String
  build_only : Bool
  run_only : Bool
  generate_benchview_data : Bool
  benchview_submission_name : Option String
deriving DecidableEq, Repr

/-- Python truthiness test used by the cross-field validation
(not args.benchview_submission_name): the value is falsy when it is absent
(None) or the empty string. -/
def pyFalsy : Option String → Bool
  | none => true
  | some s => s.isEmpty

/-- Modelled from the spec: micro_benchmarks.FrameworkAction.get_channel is
not under src/.  The spec describes it as a pure total function mapping a
framework moniker (such as netcoreapp3.0 or net6.0) deterministically to a
toolchain channel (such as 3.0 or 6.0). -/
def get_channel (target_framework_moniker : String) : String :=
  let cs := target_framework_moniker.toList
  if "netcoreapp".toList.isPrefixOf cs then String.mk (cs.drop 10)
  else if "net".toList.isPrefixOf cs then String.mk (cs.drop 3)
  else target_framework_moniker

/-- Modelled from the spec:
micro_benchmarks.FrameworkAction.get_target_framework_monikers is not under
src/.  The spec treats the requested framework identifiers as the resolved
target framework monikers passed to provisioning, build and the environment
variable. -/
def get_target_framework_monikers (frameworks : List String) : List String :=
  frameworks

/-- Transcription of init_tools from scripts/benchmarks_ci.py: it logs
an info message, computes the channel list as a plain comprehension over the
monikers, and calls dotnet.install and then benchview.install.  The source
docstring states that a semaphore file is written to avoid reinstalling, but
the body unconditionally performs both installs and neither reads nor writes
any marker; the embedding reflects this by returning the filesystem
unchanged. -/
def init_tools (architecture : String) (version : Option String)
    (target_framework_monikers : List String) (verbose : Bool) (fs : FS) :
    FS × List Event :=
  let channels := target_framework_monikers.map get_channel
  (fs,
    [Event.infoLog "Installing tools.",
     Event.installDotnet architecture channels version verbose,
     Event.installBenchview])

/-- Modelled from the spec: benchview.run_scripts is not under src/.  Per
the spec's Report Dispatcher contract, it delegates to the external
reporting collaborator only when generate_benchview_data was validated
true; otherwise it performs no reporting action. -/
def run_scripts (args : Args) : List Event :=
  if args.generate_benchview_data then [Event.reportUpload] else []

/-- The per-framework run loop of the controller: each framework's run
action is invoked in input order; a fatal signal propagates immediately
(no later framework is attempted), anything else continues the loop. -/
def run_loop (runAction : String → RunResult) (configuration : String) :
    List String → List Event × Option String
  | [] => ([], none)
  | framework :: rest =>
    match runAction framework with
    | RunResult.fatal msg => ([Event.run framework configuration], some msg)
    | _ =>
      (Event.run framework configuration :: (run_loop runAction configuration rest).1,
        (run_loop runAction configuration rest).2)

/-- Result of one controller invocation: the trace of external actions that
were performed, and the error that aborted it, if any. -/
structure Outcome where
  events : List Event
  error : Option String
deriving DecidableEq, Repr

/-- Transcription of the controller __main of scripts/benchmarks_ci.py:
cross-field validation of the reporting flags, then init_tools, then the
single environment-variable write, dotnet.info, the single build call
(skipped when run_only), the per-framework run loop and the reporting
dispatch (both skipped when build_only). -/
def __main (runAction : String → RunResult) (args : Args) (fs : FS) :
    FS × Outcome :=
  if args.generate_benchview_data && pyFalsy args.benchview_submission_name then
    (fs,
      { events := [],
        error := some "In order to generate BenchView data, --benchview-submission-name must be provided." })
  else
    let verbose := !args.quiet
    let target_framework_monikers := get_target_framework_monikers args.frameworks
    let installed := init_tools args.architecture args.dotnet_version
      target_framework_monikers verbose fs
    let pre := installed.2
      ++ [Event.setEnv "PYTHON_SCRIPT_TARGET_FRAMEWORKS"
            (String.intercalate ";" target_framework_monikers),
          Event.dotnetInfo]
      ++ (if args.run_only then []
          else [Event.build target_framework_monikers args.configuration args.incremental])
    if args.build_only then
      (installed.1, { events := pre, error := none })
    else
      match run_loop runAction args.configuration args.frameworks with
      | (runEvents, some msg) =>
        (installed.1, { events := pre ++ runEvents, error := some msg })
      | (runEvents, none) =>
        (installed.1,
          { events := pre ++ runEvents ++ Event.reportDispatch :: run_scripts args,
            error := none })

/-- Longest digit prefix of a character list, and the remainder. -/
def splitDigits : List Char → List Char × List Char
  | [] => ([], [])
  | c :: cs =>
    if c.isDigit then
      (c :: (splitDigits cs).1, (splitDigits cs).2)
    else ([], c :: cs)

/-- Numeric value of a digit run. -/
def digitsVal (ds : List Char) : Nat :=
  ds.foldl (fun acc c => 10 * acc + (c.toNat - 48)) 0

/-- Field extraction performed by Python strptime on the format
Y-m-dTH:M:SZ (each field a percent directive): exactly four year digits,
then one-or-two-digit month, day, hour, minute and second fields separated
by the literal separators; the T and Z literals match case-insensitively
because strptime compiles its pattern with IGNORECASE; the whole string
must be consumed. -/
def parseFields (s : String) :
    Option (Nat × Nat × Nat × Nat × Nat × Nat) :=
  let p0 := splitDigits s.toList
  if p0.1.length ≠ 4 then none else
  match p0.2 with
  | '-' :: r1 =>
    let p1 := splitDigits r1
    if p1.1.length = 0 || 2 < p1.1.length then none else
    match p1.2 with
    | '-' :: r2 =>
      let p2 := splitDigits r2
      if p2.1.length = 0 || 2 < p2.1.length then none else
      match p2.2 with
      | t :: r3 =>
        if !(t == 'T' || t == 't') then none else
        let p3 := splitDigits r3
        if p3.1.length = 0 || 2 < p3.1.length then none else
        match p3.2 with
        | ':' :: r4 =>
          let p4 := splitDigits r4
          if p4.1.length = 0 || 2 < p4.1.length then none else
          match p4.2 with
          | ':' :: r5 =>
            let p5 := splitDigits r5
            if p5.1.length = 0 || 2 < p5.1.length then none else
            match p5.2 with
            | [z] =>
              if z == 'Z' || z == 'z' then
                some (digitsVal p0.1, digitsVal p1.1, digitsVal p2.1,
                  digitsVal p3.1, digitsVal p4.1, digitsVal p5.1)
              else none
            | _ => none
          | _ => none
        | _ => none
      | _ => none
    | _ => none
  | _ => none

def isLeapYear (y : Nat) : Bool :=
  (y % 4 == 0 && y % 100 != 0) || y % 400 == 0

def daysInMonth (y m : Nat) : Nat :=
  if m = 2 then (if isLeapYear y then 29 else 28)
  else if m = 4 ∨ m = 6 ∨ m = 9 ∨ m = 11 then 30
  else 31

/-- Python datetime.strptime succeeding on the timestamp format: the field
extraction above, the per-field ranges enforced by the compiled pattern
(month 1..12, day 1..31, hour 0..23, minute 0..59, second 0..61), and the
checks of the datetime constructor (year at least 1, day within the month,
second at most 59 — the pattern-level leap seconds 60 and 61 are rejected
there). -/
def strptimeValid (s : String) : Bool :=
  match parseFields s with
  | none => false
  | some (y, m, d, h, mi, sec) =>
    decide (1 ≤ m ∧ m ≤ 12 ∧ 1 ≤ d ∧ d ≤ 31 ∧ h ≤ 23 ∧ mi ≤ 59 ∧ sec ≤ 61
      ∧ 1 ≤ y ∧ d ≤ daysInMonth y m ∧ sec ≤ 59)

/-- Message raised by the timestamp validator on a value strptime rejects. -/
def wrongFormatMsg (dt : String) : String :=
  "Datetime \"" ++ dt ++ "\" is in the wrong format."

/-- Transcription of the inner validator of add_arguments in
scripts/benchmarks_ci.py: try strptime on the value and return the value
unchanged on success; on ValueError raise ArgumentTypeError with a message
quoting the value. -/
def __is_valid_datetime (dt : String) : Except String String :=
  if strptimeValid dt then Except.ok dt
  else Except.error (wrongFormatMsg dt)

/-- Follows the claim's words, for comparison with the code: a string
matching the exact zero-padded textual pattern YYYY-MM-DDTHH:MM:SSZ. -/
def specExactPattern (s : String) : Bool :=
  match s.toList with
  | [y1, y2, y3, y4, c1, m1, m2, c2, d1, d2, c3, h1, h2, c4, n1, n2, c5, s1, s2, c6] =>
    y1.isDigit && y2.isDigit && y3.isDigit && y4.isDigit && c1 == '-' &&
    m1.isDigit && m2.isDigit && c2 == '-' && d1.isDigit && d2.isDigit &&
    c3 == 'T' && h1.isDigit && h2.isDigit && c4 == ':' && n1.isDigit &&
    n2.isDigit && c5 == ':' && s1.isDigit && s2.isDigit && c6 == 'Z'
  | _ => false

/-- Order-preserving de-duplication keeping the first occurrence of each
element; this is the derivation the spec describes for the channel list. -/
def dedupFirst : List String → List String
  | [] => []
  | x :: xs => x :: (dedupFirst xs).filter (fun y => y ≠ x)

/-- Concrete configuration with both partial-execution flags set. -/
def argsBoth : Args :=
  { quiet := false, architecture := "x64", dotnet_version := none,
    frameworks := ["netcoreapp3.0"], configuration := "Release",
    incremental := true, csprojfile := "MicroBenchmarks.csproj",
    bin_directory := "bin", build_only := true, run_only := true,
    generate_benchview_data := false, benchview_submission_name := none }

/-- Concrete full-mode configuration over two frameworks with reporting
enabled. -/
def argsFull : Args :=
  { quiet := false, architecture := "x64", dotnet_version := none,
    frameworks := ["net6.0", "net7.0"], configuration := "Release",
    incremental := true, csprojfile := "MicroBenchmarks.csproj",
    bin_directory := "bin", build_only := false, run_only := false,
    generate_benchview_data := true, benchview_submission_name := some "sub" }

/-- argsFull with reporting disabled. -/
def argsNoReport : Args :=
  { argsFull with generate_benchview_data := false, benchview_submission_name := none }

/-- argsFull with reporting requested but no submission name. -/
def argsReportNoName : Args :=
  { argsFull with generate_benchview_data := true, benchview_submission_name := none }

/-- Run collaborator on which every framework's run succeeds. -/
def allSuccess : String → RunResult := fun _ => RunResult.success

/-- Run collaborator reporting an ordinary (recoverable) failure for
net6.0 and success elsewhere. -/
def recover6 : String → RunResult := fun f =>
  if f = "net6.0" then RunResult.recoverableFailure else RunResult.success

/-- Run collaborator signalling a fatal error for net6.0 and success
elsewhere. -/
def fatal6 : String → RunResult := fun f =>
  if f = "net6.0" then RunResult.fatal "fatal benchmark error"
  else RunResult.success

theorem run_loop_events_are_runs (runAction : String → RunResult)
    (configuration : String) (fws : List String) :
    ∀ e ∈ (run_loop runAction configuration fws).1, isRun e = true := by
  induction fws with
  | nil => intro e he; simp [run_loop] at he
  | cons f rest ih =>
    intro e he
    cases hr : runAction f with
    | fatal msg =>
      simp [run_loop, hr] at he
      simp [he, isRun]
    | success =>
      simp [run_loop, hr] at he
      rcases he with he | he
      · simp [he, isRun]
      · exact ih e he
    | recoverableFailure =>
      simp [run_loop, hr] at he
      rcases he with he | he
      · simp [he, isRun]
      · exact ih e he

theorem run_loop_cons_not_fatal (runAction : String → RunResult)
    (configuration f : String) (rest : List String)
    (h : (runAction f).isFatal = false) :
    run_loop runAction configuration (f :: rest)
      = (Event.run f configuration :: (run_loop runAction configuration rest).1,
        (run_loop runAction configuration rest).2) := by
  cases hr : runAction f with
  | fatal m => rw [hr] at h; simp [RunResult.isFatal] at h
  | success => simp [run_loop, hr]
  | recoverableFailure => simp [run_loop, hr]

theorem run_scripts_filter_eq_nil (args : Args) (p : Event → Bool)
    (h : p Event.reportUpload = false) :
    (run_scripts args).filter p = [] := by
  cases hg : args.generate_benchview_data <;> simp [run_scripts, hg, h]

theorem run_loop_filter_eq_nil (runAction : String → RunResult)
    (configuration : String) (fws : List String) (p : Event → Bool)
    (h : ∀ f c, p (Event.run f c) = false) :
    ((run_loop runAction configuration fws).1).filter p = [] := by
  refine List.filter_eq_nil_iff.2 ?_
  intro e he
  have hrun := run_loop_events_are_runs runAction configuration fws e he
  cases e <;> simp_all [isRun, h]

theorem main_events_shape (runAction : String → RunResult) (args : Args)
    (fs : FS)
    (hv : (args.generate_benchview_data && pyFalsy args.benchview_submission_name) = false) :
    (__main runAction args fs).2.events =
      [Event.infoLog "Installing tools.",
       Event.installDotnet args.architecture (args.frameworks.map get_channel)
         args.dotnet_version (!args.quiet),
       Event.installBenchview,
       Event.setEnv "PYTHON_SCRIPT_TARGET_FRAMEWORKS"
         (String.intercalate ";" args.frameworks),
       Event.dotnetInfo]
      ++ (if args.run_only then []
          else [Event.build args.frameworks args.configuration args.incremental])
      ++ (if args.build_only then []
          else (run_loop runAction args.configuration args.frameworks).1
            ++ (if (run_loop runAction args.configuration args.frameworks).2 = none
                then Event.reportDispatch :: run_scripts args
                else [])) := by
  rcases h : run_loop runAction args.configuration args.frameworks with ⟨re, err⟩
  cases err <;> cases hb : args.build_only <;>
    simp [__main, hv, hb, h, init_tools, get_target_framework_monikers]

theorem main_error_eq (runAction : String → RunResult) (args : Args) (fs : FS)
    (hv : (args.generate_benchview_data && pyFalsy args.benchview_submission_name) = false) :
    (__main runAction args fs).2.error =
      (if args.build_only then none
       else (run_loop runAction args.configuration args.frameworks).2) := by
  rcases h : run_loop runAction args.configuration args.frameworks with ⟨re, err⟩
  cases err <;> cases hb : args.build_only <;>
    simp [__main, hv, hb, h, init_tools, get_target_framework_monikers]

theorem dedupFirst_sublist (l : List String) :
    List.Sublist (dedupFirst l) l := by
  induction l with
  | nil => simp [dedupFirst]
  | cons x xs ih =>
    simp only [dedupFirst]
    exact List.Sublist.cons₂ x ((List.filter_sublist _).trans ih)

theorem dedupFirst_eq_self_iff (l : List String) :
    dedupFirst l = l ↔ l.Nodup := by
  induction l with
  | nil => simp [dedupFirst]
  | cons x xs ih =>
    constructor
    · intro h
      simp only [dedupFirst, List.cons.injEq, true_and] at h
      have hlen1 : xs.length ≤ (dedupFirst xs).length := by
        conv_lhs => rw [← h]
        exact (List.filter_sublist _).length_le
      have hded : dedupFirst xs = xs :=
        (dedupFirst_sublist xs).eq_of_length
          (Nat.le_antisymm (dedupFirst_sublist xs).length_le hlen1)
      rw [hded] at h
      have hall : ∀ a ∈ xs, a ≠ x := by
        intro a ha
        have := (List.filter_eq_self.1 h) a ha
        simpa using this
      exact List.nodup_cons.2 ⟨fun hx => hall x hx rfl, ih.1 hded⟩
    · intro h
      rcases List.nodup_cons.1 h with ⟨hx, hnd⟩
      simp only [dedupFirst]
      rw [ih.2 hnd]
      congr 1
      refine List.filter_eq_self.2 ?_
      intro a ha
      simp only [ne_eq, decide_eq_true_eq]
      intro e
      exact hx (e ▸ ha)

theorem sanity_main_full :
    (__main (fun _ => RunResult.success)
      { quiet := false, architecture := "x64", dotnet_version := none,
        frameworks := ["netcoreapp3.0"], configuration := "Release",
        incremental := true, csprojfile := "MicroBenchmarks.csproj",
        bin_directory := "bin", build_only := false, run_only := false,
        generate_benchview_data := false, benchview_submission_name := none }
      { markers := [] }).2.error = none := by
  rfl

/-- Claim C1 (code bug): the docstring of init_tools promises that a
semaphore file is written on success so that a rerun skips reinstalling,
but the body neither writes nor consults any marker: starting from an empty
filesystem, the first call leaves the filesystem unchanged and performs
both external installs, and a second identical call performs both installs
again instead of skipping. -/
theorem c1_init_tools_not_idempotent :
    (init_tools "x64" none ["netcoreapp3.0"] true { markers := [] }).1
      = { markers := [] } ∧
    (init_tools "x64" none ["netcoreapp3.0"] true
        { markers := [] }).2.filter isInstall
      = [Event.installDotnet "x64" ["3.0"] none true, Event.installBenchview] ∧
    (init_tools "x64" none ["netcoreapp3.0"] true
        (init_tools "x64" none ["netcoreapp3.0"] true
          { markers := [] }).1).2.filter isInstall
      = [Event.installDotnet "x64" ["3.0"] none true, Event.installBenchview] := by
  refine ⟨rfl, by decide, by decide⟩

/-- Claim C2 counterexample: with both --build-only and --run-only set the
controller completes without error and tool provisioning performs its
install actions, contradicting the claim that such a configuration is
rejected before provisioning with no install performed. -/
theorem c2_counterexample :
    (__main allSuccess argsBoth { markers := [] }).2.error = none ∧
    (__main allSuccess argsBoth { markers := [] }).2.events.filter isInstall
      = [Event.installDotnet "x64" ["3.0"] none true,
         Event.installBenchview] := by
  refine ⟨rfl, by decide⟩

/-- Claim C2 (amended): an invocation with both --build-only and --run-only
set (and passing the reporting cross-field validation) is not rejected: the
controller completes without error, performs tool provisioning, and makes
no build, run or report call. -/
theorem c2_amended (runAction : String → RunResult) (args : Args) (fs : FS)
    (hb : args.build_only = true) (hr : args.run_only = true)
    (hv : (args.generate_benchview_data
      && pyFalsy args.benchview_submission_name) = false) :
    (__main runAction args fs).2.error = none ∧
    (__main runAction args fs).2.events.filter isInstall
      = [Event.installDotnet args.architecture
           (args.frameworks.map get_channel) args.dotnet_version (!args.quiet),
         Event.installBenchview] ∧
    (__main runAction args fs).2.events.filter
        (fun e => isBuild e || isRun e || isReport e) = [] := by
  refine ⟨?_, ?_, ?_⟩
  · rw [main_error_eq runAction args fs hv, hb]; simp
  · rw [main_events_shape runAction args fs hv, hb, hr]
    simp [isInstall]
  · rw [main_events_shape runAction args fs hv, hb, hr]
    simp [isInstall, isBuild, isRun, isReport]

/-- Witness for c2_amended at a concrete input. -/
theorem c2_amended_witness :
    argsBoth.build_only = true ∧ argsBoth.run_only = true ∧
    (argsBoth.generate_benchview_data
      && pyFalsy argsBoth.benchview_submission_name) = false ∧
    ((__main allSuccess argsBoth { markers := [] }).2.error = none ∧
     (__main allSuccess argsBoth { markers := [] }).2.events.filter isInstall
       = [Event.installDotnet argsBoth.architecture
            (argsBoth.frameworks.map get_channel) argsBoth.dotnet_version
            (!argsBoth.quiet),
          Event.installBenchview] ∧
     (__main allSuccess argsBoth { markers := [] }).2.events.filter
         (fun e => isBuild e || isRun e || isReport e) = []) :=
  ⟨rfl, rfl, rfl, c2_amended allSuccess argsBoth { markers := [] } rfl rfl rfl⟩

/-- Claim C4: when generate_benchview_data is set and the submission name
is empty or absent, the controller fails with the descriptive configuration
error before any external call: the trace of external actions is empty, so
installer, builder, runner and reporter are each invoked zero times. -/
theorem c4_report_without_name_rejected (runAction : String → RunResult)
    (args : Args) (fs : FS)
    (hg : args.generate_benchview_data = true)
    (hn : pyFalsy args.benchview_submission_name = true) :
    (__main runAction args fs).2.events = [] ∧
    (__main runAction args fs).2.error
      = some "In order to generate BenchView data, --benchview-submission-name must be provided." := by
  simp [__main, hg, hn]

/-- Witness for c4_report_without_name_rejected at a concrete input. -/
theorem c4_witness :
    argsReportNoName.generate_benchview_data = true ∧
    pyFalsy argsReportNoName.benchview_submission_name = true ∧
    ((__main allSuccess argsReportNoName { markers := [] }).2.events = [] ∧
     (__main allSuccess argsReportNoName { markers := [] }).2.error
       = some "In order to generate BenchView data, --benchview-submission-name must be provided.") :=
  ⟨rfl, rfl,
    c4_report_without_name_rejected allSuccess argsReportNoName
      { markers := [] } rfl rfl⟩

/-- Claim C6 counterexample: with the moniker netcoreapp3.0 requested
twice, the channel list passed to the install action contains the channel
3.0 twice, while the order-preserving de-duplicated image the claim
describes contains it once. -/
theorem c6_counterexample :
    (init_tools "x64" none ["netcoreapp3.0", "netcoreapp3.0"] true
        { markers := [] }).2.filter isInstallDotnet
      = [Event.installDotnet "x64" ["3.0", "3.0"] none true] ∧
    dedupFirst (["netcoreapp3.0", "netcoreapp3.0"].map get_channel)
      = ["3.0"] ∧
    (["3.0", "3.0"] : List String) ≠ ["3.0"] := by
  refine ⟨by decide, by decide, by decide⟩

/-- Claim C6 (amended): the channel list passed to provisioning is the
plain order- and multiplicity-preserving image of the moniker list under
the moniker-to-channel mapping — no de-duplication is applied; it agrees
with the order-preserving de-duplicated image exactly when that image is
already free of duplicates. -/
theorem c6_channels_plain_image (architecture : String)
    (version : Option String) (tfms : List String) (verbose : Bool)
    (fs : FS) :
    (init_tools architecture version tfms verbose fs).2
      = [Event.infoLog "Installing tools.",
         Event.installDotnet architecture (tfms.map get_channel) version
           verbose,
         Event.installBenchview] ∧
    (dedupFirst (tfms.map get_channel) = tfms.map get_channel
      ↔ (tfms.map get_channel).Nodup) :=
  ⟨rfl, dedupFirst_eq_self_iff _⟩

/-- Claim C10: with both --build-only and --run-only set and validation
otherwise succeeding, the controller performs tool provisioning and the
environment-variable propagation, makes zero build, run and report calls,
and completes without error. -/
theorem c10_both_flags_provision_only (runAction : String → RunResult)
    (args : Args) (fs : FS)
    (hb : args.build_only = true) (hr : args.run_only = true)
    (hv : (args.generate_benchview_data
      && pyFalsy args.benchview_submission_name) = false) :
    __main runAction args fs =
      (fs,
        { events :=
            [Event.infoLog "Installing tools.",
             Event.installDotnet args.architecture
               (args.frameworks.map get_channel) args.dotnet_version
               (!args.quiet),
             Event.installBenchview,
             Event.setEnv "PYTHON_SCRIPT_TARGET_FRAMEWORKS"
               (String.intercalate ";" args.frameworks),
             Event.dotnetInfo],
          error := none }) := by
  simp [__main, hv, hb, hr, init_tools, get_target_framework_monikers]

/-- Witness for c10_both_flags_provision_only at a concrete input. -/
theorem c10_witness :
    argsBoth.build_only = true ∧ argsBoth.run_only = true ∧
    (argsBoth.generate_benchview_data
      && pyFalsy argsBoth.benchview_submission_name) = false ∧
    __main allSuccess argsBoth { markers := [] } =
      ({ markers := [] },
        { events :=
            [Event.infoLog "Installing tools.",
             Event.installDotnet "x64" ["3.0"] none true,
             Event.installBenchview,
             Event.setEnv "PYTHON_SCRIPT_TARGET_FRAMEWORKS" "netcoreapp3.0",
             Event.dotnetInfo],
          error := none }) :=
  ⟨rfl, rfl, rfl,
    c10_both_flags_provision_only allSuccess argsBoth { markers := [] }
      rfl rfl rfl⟩

/-- Claim C3: in a full-mode invocation over frameworks net6.0 and net7.0
(validation passing, no run signalling fatally), the controller makes
exactly one build call carrying both monikers together, exactly two run
calls — one per moniker, in input order — and one report dispatch that
follows both runs. -/
theorem c3_full_matrix (runAction : String → RunResult) (args : Args)
    (fs : FS)
    (hf : args.frameworks = ["net6.0", "net7.0"])
    (hb : args.build_only = false) (hr : args.run_only = false)
    (hv : (args.generate_benchview_data
      && pyFalsy args.benchview_submission_name) = false)
    (h6 : (runAction "net6.0").isFatal = false)
    (h7 : (runAction "net7.0").isFatal = false) :
    (__main runAction args fs).2.events.filter isBuild
      = [Event.build ["net6.0", "net7.0"] args.configuration
          args.incremental] ∧
    (__main runAction args fs).2.events.filter isRun
      = [Event.run "net6.0" args.configuration,
         Event.run "net7.0" args.configuration] ∧
    ((__main runAction args fs).2.events.filter isReportDispatch).length
      = 1 ∧
    (∃ l1 l2, (__main runAction args fs).2.events
        = l1 ++ Event.reportDispatch :: l2 ∧
      Event.run "net6.0" args.configuration ∈ l1 ∧
      Event.run "net7.0" args.configuration ∈ l1) := by
  have hs := main_events_shape runAction args fs hv
  rw [hf, hb, hr] at hs
  have hrl : run_loop runAction args.configuration ["net6.0", "net7.0"]
      = ([Event.run "net6.0" args.configuration,
          Event.run "net7.0" args.configuration], none) := by
    rw [run_loop_cons_not_fatal runAction args.configuration "net6.0"
        ["net7.0"] h6,
      run_loop_cons_not_fatal runAction args.configuration "net7.0" [] h7]
    simp [run_loop]
  rw [hrl] at hs
  simp only [if_neg, reduceIte] at hs
  refine ⟨?_, ?_, ?_, ?_⟩
  · rw [hs]
    simp [List.filter_append, isBuild,
      run_scripts_filter_eq_nil args isBuild rfl]
  · rw [hs]
    simp [List.filter_append, isRun,
      run_scripts_filter_eq_nil args isRun rfl]
  · rw [hs]
    simp [List.filter_append, isReportDispatch,
      run_scripts_filter_eq_nil args isReportDispatch rfl]
  · refine ⟨[Event.infoLog "Installing tools.",
      Event.installDotnet args.architecture
        (["net6.0", "net7.0"].map get_channel) args.dotnet_version
        (!args.quiet),
      Event.installBenchview,
      Event.setEnv "PYTHON_SCRIPT_TARGET_FRAMEWORKS"
        (String.intercalate ";" ["net6.0", "net7.0"]),
      Event.dotnetInfo,
      Event.build ["net6.0", "net7.0"] args.configuration args.incremental,
      Event.run "net6.0" args.configuration,
      Event.run "net7.0" args.configuration], run_scripts args, ?_, ?_, ?_⟩
    · rw [hs]; simp
    · simp
    · simp

/-- Witness for c3_full_matrix at a concrete input. -/
theorem c3_witness :
    argsFull.frameworks = ["net6.0", "net7.0"] ∧
    argsFull.build_only = false ∧ argsFull.run_only = false ∧
    (argsFull.generate_benchview_data
      && pyFalsy argsFull.benchview_submission_name) = false ∧
    (allSuccess "net6.0").isFatal = false ∧
    (allSuccess "net7.0").isFatal = false ∧
    ((__main allSuccess argsFull { markers := [] }).2.events.filter isBuild
       = [Event.build ["net6.0", "net7.0"] argsFull.configuration
           argsFull.incremental] ∧
     (__main allSuccess argsFull { markers := [] }).2.events.filter isRun
       = [Event.run "net6.0" argsFull.configuration,
          Event.run "net7.0" argsFull.configuration] ∧
     ((__main allSuccess argsFull
         { markers := [] }).2.events.filter isReportDispatch).length = 1 ∧
     (∃ l1 l2, (__main allSuccess argsFull { markers := [] }).2.events
         = l1 ++ Event.reportDispatch :: l2 ∧
       Event.run "net6.0" argsFull.configuration ∈ l1 ∧
       Event.run "net7.0" argsFull.configuration ∈ l1)) :=
  ⟨rfl, rfl, rfl, rfl, rfl, rfl,
    c3_full_matrix allSuccess argsFull { markers := [] }
      rfl rfl rfl rfl rfl rfl⟩

/-- Claim C5: in the same full-mode two-framework invocation, an ordinary
(recoverable) failure of the net6.0 run does not stop the matrix — the
net7.0 run still executes and the controller still reaches the report
dispatch without error — while a failure the run action signals as fatal
aborts the matrix: the error propagates and the net7.0 run never
executes. -/
theorem c5_failure_policy (runAction : String → RunResult) (args : Args)
    (fs : FS)
    (hf : args.frameworks = ["net6.0", "net7.0"])
    (hb : args.build_only = false) (hr : args.run_only = false)
    (hv : (args.generate_benchview_data
      && pyFalsy args.benchview_submission_name) = false) :
    (runAction "net6.0" = RunResult.recoverableFailure →
      (runAction "net7.0").isFatal = false →
      Event.run "net7.0" args.configuration
          ∈ (__main runAction args fs).2.events ∧
        Event.reportDispatch ∈ (__main runAction args fs).2.events ∧
        (__main runAction args fs).2.error = none) ∧
    (∀ msg, runAction "net6.0" = RunResult.fatal msg →
      (__main runAction args fs).2.error = some msg ∧
        Event.run "net7.0" args.configuration
          ∉ (__main runAction args fs).2.events) := by
  have hs := main_events_shape runAction args fs hv
  have he := main_error_eq runAction args fs hv
  rw [hf, hb, hr] at hs
  rw [hb] at he
  rw [hf] at he
  constructor
  · intro h6 h7
    have h6f : (runAction "net6.0").isFatal = false := by
      rw [h6]; rfl
    have hrl : run_loop runAction args.configuration ["net6.0", "net7.0"]
        = ([Event.run "net6.0" args.configuration,
            Event.run "net7.0" args.configuration], none) := by
      rw [run_loop_cons_not_fatal runAction args.configuration "net6.0"
          ["net7.0"] h6f,
        run_loop_cons_not_fatal runAction args.configuration "net7.0" [] h7]
      simp [run_loop]
    rw [hrl] at hs he
    simp only [reduceIte] at hs he
    refine ⟨?_, ?_, by simpa using he⟩
    · rw [hs]; simp
    · rw [hs]; simp
  · intro msg h6
    have hrl : run_loop runAction args.configuration ["net6.0", "net7.0"]
        = ([Event.run "net6.0" args.configuration], some msg) := by
      simp [run_loop, h6]
    rw [hrl] at hs he
    simp only [reduceIte] at hs he
    refine ⟨by simpa using he, ?_⟩
    rw [hs]
    simp [show ("net7.0" : String) ≠ "net6.0" from by decide]

/-- Witness for c5_failure_policy, exercising both the recoverable and the
fatal branch at concrete inputs. -/
theorem c5_witness :
    (argsFull.frameworks = ["net6.0", "net7.0"] ∧
     argsFull.build_only = false ∧ argsFull.run_only = false ∧
     (argsFull.generate_benchview_data
       && pyFalsy argsFull.benchview_submission_name) = false ∧
     recover6 "net6.0" = RunResult.recoverableFailure ∧
     (recover6 "net7.0").isFatal = false ∧
     (Event.run "net7.0" argsFull.configuration
         ∈ (__main recover6 argsFull { markers := [] }).2.events ∧
       Event.reportDispatch
         ∈ (__main recover6 argsFull { markers := [] }).2.events ∧
       (__main recover6 argsFull { markers := [] }).2.error = none)) ∧
    (fatal6 "net6.0" = RunResult.fatal "fatal benchmark error" ∧
     ((__main fatal6 argsFull { markers := [] }).2.error
         = some "fatal benchmark error" ∧
       Event.run "net7.0" argsFull.configuration
         ∉ (__main fatal6 argsFull { markers := [] }).2.events)) :=
  ⟨⟨rfl, rfl, rfl, rfl, rfl, rfl,
    (c5_failure_policy recover6 argsFull { markers := [] }
      rfl rfl rfl rfl).1 rfl rfl⟩,
   ⟨rfl,
    (c5_failure_policy fatal6 argsFull { markers := [] }
      rfl rfl rfl rfl).2 "fatal benchmark error" rfl⟩⟩

/-- Claim C8: on every invocation that passes validation, the controller
writes exactly one environment variable — PYTHON_SCRIPT_TARGET_FRAMEWORKS,
set to the semicolon-joined list of resolved target framework monikers —
and it does so before dotnet.info and before any build, run or report
action: the whole trace is the install prefix, then the single setEnv
event, then a tail containing no further environment write. -/
theorem c8_single_env_write (runAction : String → RunResult) (args : Args)
    (fs : FS)
    (hv : (args.generate_benchview_data
      && pyFalsy args.benchview_submission_name) = false) :
    ∃ tail, (__main runAction args fs).2.events
        = [Event.infoLog "Installing tools.",
           Event.installDotnet args.architecture
             (args.frameworks.map get_channel) args.dotnet_version
             (!args.quiet),
           Event.installBenchview,
           Event.setEnv "PYTHON_SCRIPT_TARGET_FRAMEWORKS"
             (String.intercalate ";" args.frameworks)]
          ++ tail ∧
      tail.filter isSetEnv = [] := by
  have hs := main_events_shape runAction args fs hv
  refine ⟨Event.dotnetInfo
      :: ((if args.run_only then []
          else [Event.build args.frameworks args.configuration
            args.incremental])
        ++ (if args.build_only then []
          else (run_loop runAction args.configuration args.frameworks).1
            ++ (if (run_loop runAction args.configuration
                args.frameworks).2 = none
              then Event.reportDispatch :: run_scripts args
              else []))), ?_, ?_⟩
  · rw [hs]; simp
  · have h1 : ((run_loop runAction args.configuration
        args.frameworks).1).filter isSetEnv = [] :=
      run_loop_filter_eq_nil runAction args.configuration args.frameworks
        isSetEnv (fun _ _ => rfl)
    have h2 : (run_scripts args).filter isSetEnv = [] :=
      run_scripts_filter_eq_nil args isSetEnv rfl
    cases hro : args.run_only <;> cases hbo : args.build_only <;>
      cases herr : (run_loop runAction args.configuration
          args.frameworks).2 <;>
        simp [List.filter_append, isSetEnv, h1, h2, herr]

/-- Witness for c8_single_env_write at a concrete input. -/
theorem c8_witness :
    (argsFull.generate_benchview_data
      && pyFalsy argsFull.benchview_submission_name) = false ∧
    (∃ tail, (__main allSuccess argsFull { markers := [] }).2.events
        = [Event.infoLog "Installing tools.",
           Event.installDotnet argsFull.architecture
             (argsFull.frameworks.map get_channel) argsFull.dotnet_version
             (!argsFull.quiet),
           Event.installBenchview,
           Event.setEnv "PYTHON_SCRIPT_TARGET_FRAMEWORKS"
             (String.intercalate ";" argsFull.frameworks)]
          ++ tail ∧
      tail.filter isSetEnv = []) :=
  ⟨rfl, c8_single_env_write allSuccess argsFull { markers := [] } rfl⟩

/-- Claim C9: when generate_benchview_data is false, no reporting call to
the external reporting collaborator is made — the trace contains no upload
event — even when the run phase executes. -/
theorem c9_no_upload_when_disabled (runAction : String → RunResult)
    (args : Args) (fs : FS)
    (hg : args.generate_benchview_data = false) :
    (__main runAction args fs).2.events.filter isReportUpload = [] := by
  have hv : (args.generate_benchview_data
      && pyFalsy args.benchview_submission_name) = false := by
    rw [hg]; rfl
  have hs := main_events_shape runAction args fs hv
  rw [hs]
  have h1 : ((run_loop runAction args.configuration
      args.frameworks).1).filter isReportUpload = [] :=
    run_loop_filter_eq_nil runAction args.configuration args.frameworks
      isReportUpload (fun _ _ => rfl)
  have h2 : run_scripts args = [] := by simp [run_scripts, hg]
  cases hro : args.run_only <;> cases hbo : args.build_only <;>
    cases herr : (run_loop runAction args.configuration
        args.frameworks).2 <;>
      simp [List.filter_append, isReportUpload, h1, h2, herr]

/-- Witness for c9_no_upload_when_disabled at a concrete input whose run
phase executes. -/
theorem c9_witness :
    argsNoReport.generate_benchview_data = false ∧
    (__main allSuccess argsNoReport
      { markers := [] }).2.events.filter isReportUpload = [] :=
  ⟨rfl,
    c9_no_upload_when_disabled allSuccess argsNoReport
      { markers := [] } rfl⟩

/-- Claim C7 counterexample: the string 2020-01-02T3:04:05Z does not match
the exact zero-padded pattern named by the claim (its hour field has a
single digit), yet the validator accepts it and returns it unchanged,
because strptime tolerates unpadded fields; the claim that every string
not matching the exact pattern fails is therefore false. -/
theorem c7_counterexample :
    specExactPattern "2020-01-02T3:04:05Z" = false ∧
    __is_valid_datetime "2020-01-02T3:04:05Z"
      = Except.ok "2020-01-02T3:04:05Z" := by
  refine ⟨by decide, rfl⟩

/-- Claim C7 (amended): a timestamp passed to --cli-source-timestamp is
accepted exactly when strptime accepts it against the format — which
also tolerates unpadded month, day, hour, minute and second fields and
lowercase t and z — and on acceptance the resolved value is the same
string unchanged (round-trip); on rejection the validator raises an
argument-type error quoting the offending value (the expected format is
not part of that message).  Every string of the exact zero-padded shape
is in particular parsed into its six fields. -/
theorem c7_timestamp_validation (s : String) :
    (strptimeValid s = true → __is_valid_datetime s = Except.ok s) ∧
    (strptimeValid s = false →
      __is_valid_datetime s = Except.error (wrongFormatMsg s)) ∧
    (specExactPattern s = true → (parseFields s).isSome = true) := by
  refine ⟨?_, ?_, ?_⟩
  · intro h; simp [__is_valid_datetime, h]
  · intro h; simp [__is_valid_datetime, h]
  · intro h
    unfold specExactPattern at h
    split at h
    next y1 y2 y3 y4 c1 m1 m2 c2 d1 d2 c3 h1 h2 c4 n1 n2 c5 s1 s2 c6 heq =>
      simp only [Bool.and_eq_true, beq_iff_eq, and_assoc] at h
      obtain ⟨hy1, hy2, hy3, hy4, hc1, hm1, hm2, hc2, hd1, hd2, hc3, hh1,
        hh2, hc4, hn1, hn2, hc5, hs1, hs2, hc6⟩ := h
      subst hc1 hc2 hc3 hc4 hc5 hc6
      have hdash : (('-' : Char).isDigit) = false := by decide
      have hbigT : (('T' : Char).isDigit) = false := by decide
      have hcolon : (((':' : Char).isDigit)) = false := by decide
      have hbigZ : (('Z' : Char).isDigit) = false := by decide
      unfold parseFields
      rw [heq]
      simp [splitDigits, hy1, hy2, hy3, hy4, hm1, hm2, hd1, hd2, hh1, hh2,
        hn1, hn2, hs1, hs2, hdash, hbigT, hcolon, hbigZ]
    next => exact absurd h (by simp)

/-- Witness for c7_timestamp_validation, exercising each hypothesis at a
concrete string. -/
theorem c7_witness :
    (strptimeValid "2021-12-31T23:59:59Z" = true ∧
      __is_valid_datetime "2021-12-31T23:59:59Z"
        = Except.ok "2021-12-31T23:59:59Z") ∧
    (strptimeValid "2020-13-01T00:00:00Z" = false ∧
      __is_valid_datetime "2020-13-01T00:00:00Z"
        = Except.error (wrongFormatMsg "2020-13-01T00:00:00Z")) ∧
    (specExactPattern "2021-12-31T23:59:59Z" = true ∧
      (parseFields "2021-12-31T23:59:59Z").isSome = true) :=
  ⟨⟨by decide, (c7_timestamp_validation "2021-12-31T23:59:59Z").1 (by decide)⟩,
   ⟨by decide,
    (c7_timestamp_validation "2020-13-01T00:00:00Z").2.1 (by decide)⟩,
   ⟨by decide,
    (c7_timestamp_validation "2021-12-31T23:59:59Z").2.2 (by decide)⟩⟩
